import Mathlib

/-!
Verification of the server core of "The Fall" (Server/server.py and
Server/database.py) against its natural-language specification.

The Python source is shallowly embedded: Python `datetime` values become
integer epoch seconds, `timedelta` arguments become integer second counts,
Python dicts become association lists with insertion-order semantics
(lookup finds the unique entry for a key, assignment overwrites in place or
appends, deletion removes the entry), and fallible paths return explicit
result types.  Pure fragments of the handlers are translated directly from
the source; the rate limiter gates and network sends that wrap them are
modelled separately or omitted where no claim depends on them.
-/

namespace TheFall

/-- Epoch time in seconds, standing for Python `datetime.datetime`.
`timedelta(minutes=5)` becomes `300`, `timedelta(hours=1)` becomes `3600`. -/
abbrev Time := Int

abbrev Username := String

/-! ### Python dict as an association list -/

/-- `d.get(key)` / `d[key]`: value at a key, if present (keys are unique). -/
def dictGet [DecidableEq k] : List (k × v) → k → Option v
  | [], _ => none
  | p :: rest, key => if p.1 = key then some p.2 else dictGet rest key

/-- `d[key] = val`: overwrite in place, or append a new entry. -/
def dictSet [DecidableEq k] : List (k × v) → k → v → List (k × v)
  | [], key, val => [(key, val)]
  | p :: rest, key, val =>
    if p.1 = key then (key, val) :: rest else p :: dictSet rest key val

/-- SQL `UPDATE ... WHERE key = ?`: overwrite in place; a missing row is a
no-op (unlike `dictSet`, nothing is inserted). -/
def dictUpdate [DecidableEq k] : List (k × v) → k → v → List (k × v)
  | [], _, _ => []
  | p :: rest, key, val =>
    if p.1 = key then (key, val) :: rest else p :: dictUpdate rest key val

/-- `del d[key]`: remove the entry for a key (keys are unique). -/
def dictDel [DecidableEq k] : List (k × v) → k → List (k × v)
  | [], _ => []
  | p :: rest, key => if p.1 = key then rest else p :: dictDel rest key

/-! ### Round winner (server.py, `Server.on_round_end`, lines 464-471) -/

/-- The `winning` value computed by `on_round_end` from the two teams'
`remaining_players` counters:
`draw` if equal, `red` if red has players left and blue has none,
and `blue` in every other case. -/
def roundWinner (red_rem blue_rem : Int) : String :=
  if red_rem = blue_rem then "draw"
  else if 0 < red_rem ∧ blue_rem ≤ 0 then "red"
  else "blue"

/-- The round-winner rule as the claim words it: tie gives a draw, otherwise
the team with the greater remaining count wins.  Stated for comparison with
`roundWinner`, which is translated from the source. -/
def roundWinnerClaimed (red_rem blue_rem : Int) : String :=
  if red_rem = blue_rem then "draw"
  else if blue_rem < red_rem then "red"
  else "blue"

/-! ### Rate limiter (database.py, `DBManager.maybe_rlimit` lines 160-190,
`DBManager.is_rlimited` lines 192-200, sweep in `clear_cache` lines 136-143) -/

/-- One value of `DBManager.__ratelimit_cache`, keyed by connection. -/
structure RateLimitEntry where
  times : Int
  limit : Int
  clear_after : Option Time
  retry_after : Option Time
deriving DecidableEq, Repr

/-- `maybe_rlimit` on the entry for one connection (`none` = connection not
in the cache yet).  Returns the stored entry together with the payload of
the rate-limit error notification pushed to the connection, if one is sent
(the notification carries `retry_after` as an absolute timestamp). -/
def maybeRlimit (cur : Option RateLimitEntry) (now : Time) :
    RateLimitEntry × Option Time :=
  match cur with
  | none =>
    ({ times := 1, limit := 50, clear_after := some (now + 300),
       retry_after := none }, none)
  | some c0 =>
    let c := { c0 with times := c0.times + 1 }
    if c.times < c.limit then
      ({ c with retry_after := none, clear_after := some (now + 60) }, none)
    else
      let d0 := c.times * 5
      let d := if 3600 < d0 then 3600 else d0
      ({ c with retry_after := some (now + d),
                clear_after := some (now + d + 150) }, some (now + d))

/-- `is_rlimited`: a connection is limited while its entry's `retry_after`
is set (a `datetime` is always truthy in Python) and in the future. -/
def isRlimited (cur : Option RateLimitEntry) (now : Time) : Bool :=
  match cur with
  | none => false
  | some c =>
    match c.retry_after with
    | none => false
    | some r => now < r

/-- First deletion test of the rate-limit sweep in `clear_cache`:
`r_after and (r_after - now) > timedelta(hours=1)`.  Note the source
subtracts `now` from `retry_after`, so this fires when `retry_after` is
more than one hour in the FUTURE. -/
def sweepCond1 (e : RateLimitEntry) (now : Time) : Bool :=
  match e.retry_after with
  | none => false
  | some r => 3600 < r - now

/-- Second deletion test of the rate-limit sweep in `clear_cache`:
`c_after and limit <= times and c_after <= now`. -/
def sweepCond2 (e : RateLimitEntry) (now : Time) : Bool :=
  match e.clear_after with
  | none => false
  | some c => decide (e.limit ≤ e.times) && decide (c ≤ now)

/-- An entry is removed by one pass of the sweep when either test fires. -/
def sweepDeletes (e : RateLimitEntry) (now : Time) : Bool :=
  sweepCond1 e now || sweepCond2 e now

/-- The deletion rule as the claim words it: `retry_after` more than one
hour in the PAST, or `clear_after` passed while still at or over the limit.
Stated for comparison with `sweepDeletes`, which is translated from the
source. -/
def sweepDeletesClaimed (e : RateLimitEntry) (now : Time) : Bool :=
  (match e.retry_after with
   | none => false
   | some r => 3600 < now - r) || sweepCond2 e now

/-- One pass of the rate-limit portion of `clear_cache` over the whole
cache.  The source iterates a copy and issues `del` under each test
separately, so an entry satisfying both tests is deleted twice: the second
`del` raises `KeyError` and kills the sweep task; that crash is modelled as
`none`.  Otherwise the pass keeps exactly the entries neither test
deletes, each one unchanged. -/
def sweepPass (cache : List (Nat × RateLimitEntry)) (now : Time) :
    Option (List (Nat × RateLimitEntry)) :=
  if cache.any (fun p => sweepCond1 p.2 now && sweepCond2 p.2 now) then none
  else some (cache.filter (fun p => !sweepDeletes p.2 now))

/-! ### Lobbies and invites (server.py) -/

/-- The `Invite` dataclass (server.py lines 49-53). -/
structure Invite where
  audit_log : List (Username × Username)
  invited_users : List Username
  lobby_id : String
deriving DecidableEq, Repr

/-- The `game_settings` dict of a lobby (keys `total_rounds`,
`round_duration`). -/
structure GameSettings where
  total_rounds : Int
  round_duration : Int
deriving DecidableEq, Repr

/-- The `Lobby` dataclass (server.py lines 56-66). `players` maps each
member to their join time. -/
structure Lobby where
  host : Username
  red_team : List Username
  blue_team : List Username
  switcher : List Username
  players : List (Username × Time)
  invite_code : Nat
  game_settings : GameSettings
  game_starting_at : Option Time := none
deriving DecidableEq, Repr

/-- The lobby and invite registries held by `Server` (`__lobbies` keyed by
lobby id, `__invites` keyed by invite code). -/
structure LobbyRegistry where
  lobbies : List (String × Lobby)
  invites : List (Nat × Invite)
deriving DecidableEq, Repr

/-- The membership test of `create_lobby`'s sampling loop as the source
evaluates it: `invite_code not in self.__invites.values()` compares the
candidate int against the `Invite` dataclass values of the dict, and in
Python an int never equals an `Invite` instance, so each comparison is
`False` and the candidate is never found among the values. -/
def pyIntEqInvite (_code : Nat) (_inv : Invite) : Bool := false

/-- `invite_code in self.__invites.values()` for a candidate code. -/
def inviteCodeInValues (invites : List (Nat × Invite)) (code : Nat) : Bool :=
  invites.any (fun p => pyIntEqInvite code p.2)

/-- The invite-code sampling loop of `create_lobby` (lines 256-267):
draw a code, count the iteration, give up with a concurrency-limit error
after 99,000 draws, and stop at the first code not found among the invite
dict's values.  `samples i` is the value of the `i`-th
`SystemRandom().randint(100_000, 999_999)` draw. -/
def sampleInviteCodeFrom (samples : Nat → Nat) (invites : List (Nat × Invite)) :
    Nat → Nat → Option Nat
  | _, 0 => none
  | idx, fuel + 1 =>
    let code := samples idx
    if inviteCodeInValues invites code then
      sampleInviteCodeFrom samples invites (idx + 1) fuel
    else some code

/-- The sampling loop entered with its full iteration budget. -/
def sampleInviteCode (samples : Nat → Nat) (invites : List (Nat × Invite)) :
    Option Nat :=
  sampleInviteCodeFrom samples invites 0 99000

/-- The `Lobby` literal built by `create_lobby` (line 270-272): the host is
the sole player, placed in `switcher`, with default settings
`total_rounds = 3`, `round_duration = 150`. -/
def newLobby (host : Username) (now : Time) (code : Nat) : Lobby :=
  { host := host, red_team := [], blue_team := [], switcher := [host],
    players := [(host, now)], invite_code := code,
    game_settings := { total_rounds := 3, round_duration := 150 } }

inductive CreateLobbyResult
  | concurrencyLimit
  | ok (st : LobbyRegistry) (lobby_id : String) (lobby : Lobby)
deriving DecidableEq, Repr

/-- `Server.create_lobby` (lines 241-278), its registry effect: sample an
invite code, register the new lobby under a fresh snowflake id, and store a
fresh `Invite` under the sampled code — overwriting whatever invite record
that code already keyed.  The rate-limit gate at the top of the handler is
modelled separately (`maybeRlimit` and friends); `newLobbyId` stands for
the generated snowflake. -/
def createLobby (host : Username) (samples : Nat → Nat) (now : Time)
    (newLobbyId : String) (st : LobbyRegistry) : CreateLobbyResult :=
  match sampleInviteCode samples st.invites with
  | none => .concurrencyLimit
  | some code =>
    let lobby := newLobby host now code
    .ok { lobbies := dictSet st.lobbies newLobbyId lobby,
          invites := dictSet st.invites code
            { audit_log := [], invited_users := [], lobby_id := newLobbyId } }
      newLobbyId lobby

/-- The identical `elif` chains at server.py lines 155-160 (`on_remove`),
909-914 (`leave_lobby` handler) and 948-953 (`join_team` handler): remove
the first occurrence of the member from whichever one of `switcher`,
`blue_team`, `red_team` holds them, checked in that order. -/
def removeMember (l : Lobby) (u : Username) : Lobby :=
  if u ∈ l.switcher then { l with switcher := l.switcher.erase u }
  else if u ∈ l.blue_team then { l with blue_team := l.blue_team.erase u }
  else if u ∈ l.red_team then { l with red_team := l.red_team.erase u }
  else l

/-- The team-assignment step of the `join_team` handler (lines 948-960):
remove the member from whichever list holds them, then append to `red_team`
on `team == 'red'`, to `blue_team` on `team == 'blue'`, and to `switcher`
on ANY other value (the `team` argument is never validated; `none` stands
for a missing value). -/
def joinTeamLists (l : Lobby) (u : Username) (team : Option String) : Lobby :=
  let l' := removeMember l u
  if team = some "red" then { l' with red_team := l'.red_team ++ [u] }
  else if team = some "blue" then { l' with blue_team := l'.blue_team ++ [u] }
  else { l' with switcher := l'.switcher ++ [u] }

/-- The `join_team` command handler after authentication (lines 936-966):
on a missing lobby reply `status: False`; otherwise apply
`joinTeamLists` and reply `status: True` whatever the `team` value was. -/
def joinTeamCommand (lobby : Option Lobby) (u : Username)
    (team : Option String) : Option Lobby × Bool :=
  match lobby with
  | none => (none, false)
  | some l => (some (joinTeamLists l u team), true)

/-- The capacity test of `join_lobby` as the source evaluates it:
`lobby.players == 10` compares the players dict itself against the int 10,
which in Python is always `False` (the dict is never equal to an int). -/
def playersDictEqTen (_players : List (Username × Time)) : Bool := false

inductive JoinLobbyResult
  | notFound
  | full
  | joined (lobby_id : String) (lobby : Lobby)
deriving DecidableEq, Repr

/-- Find the first lobby (in registry insertion order) whose invite code
matches and whose `game_starting_at` is unset — the scan at lines
372-376. -/
def findJoinableLobby (lobbies : List (String × Lobby)) (code : Nat) :
    Option (String × Lobby) :=
  lobbies.find? (fun p =>
    p.2.invite_code == code && p.2.game_starting_at.isNone)

/-- `Server.join_lobby` (lines 357-390), its registry effect: locate a
joinable lobby by invite code (`notFound` otherwise), test fullness with
the source's `lobby.players == 10` comparison, then append the user to
`switcher` and record them in `players` with the current time (the
`on_lobby_gateway join` step).  The rate-limit gate is modelled
separately. -/
def joinLobby (user : Username) (code : Nat) (now : Time)
    (st : LobbyRegistry) : JoinLobbyResult × LobbyRegistry :=
  match findJoinableLobby st.lobbies code with
  | none => (.notFound, st)
  | some (lid, lobby) =>
    if playersDictEqTen lobby.players then (.full, st)
    else
      let lobby' := { lobby with
        switcher := lobby.switcher ++ [user],
        players := dictSet lobby.players user now }
      (.joined lid lobby', { st with lobbies := dictSet st.lobbies lid lobby' })

/-- The per-lobby invariant of the claim: every username occurs at most
once across `red_team`, `blue_team` and `switcher` together. -/
def lobbyInv (l : Lobby) : Prop :=
  (l.red_team ++ l.blue_team ++ l.switcher).Nodup

instance (l : Lobby) : Decidable (lobbyInv l) := by
  unfold lobbyInv; infer_instance

/-! ### Game-settings update (server.py, `update_game_settings` handler,
lines 968-1011) -/

inductive UpdateSettingsResult
  | statusTrue
  | errNotIntegers
  | errRoundDuration
  | errTotalRounds
  | errLobbyNotFound
deriving DecidableEq, Repr

/-- The `update_game_settings` handler after authentication.  `user` is the
authenticated requester (used by the source only to address the
`settings_update` broadcast — the handler never compares it with
`lobby.host`); `tr`/`rd` are `settings_dict.get('total_rounds')` and
`settings_dict.get('round_duration')`, `none` when missing or when the
Python `type(x) == int` test fails.  Validation order follows the source:
duration range before rounds range; in-range values are stored
unconditionally, identical or not. -/
def updateGameSettings (user : Username) (lobby : Option Lobby)
    (tr rd : Option Int) : UpdateSettingsResult × Option Lobby :=
  match lobby with
  | none => (.errLobbyNotFound, none)
  | some l =>
    match tr, rd with
    | some total_rounds, some round_duration =>
      if 600 < round_duration ∨ round_duration < 60 then
        (.errRoundDuration, some l)
      else if 20 < total_rounds ∨ total_rounds < 1 then
        (.errTotalRounds, some l)
      else
        (.statusTrue, some { l with game_settings :=
          { total_rounds := total_rounds, round_duration := round_duration } })
    | _, _ => (.errNotIntegers, some l)

/-! ### OTP caches and verification (database.py) -/

/-- The payload of a registration OTP cache entry (the non-`datetime`
fields of `OTPCacheDict` as used by `__register_cache`). -/
structure RegPayload where
  displayname : String
  username : String
  email : String
  password : String
deriving DecidableEq, Repr

/-- One `__register_cache` entry: expiry instant plus payload. -/
structure RegEntry where
  expires : Time
  payload : RegPayload
deriving DecidableEq, Repr

/-- The payload of a forgot-password OTP cache entry
(`__fpwd_otp_cache` stores only `username` and `email` besides the
expiry). -/
structure FpwdPayload where
  username : String
  email : String
deriving DecidableEq, Repr

/-- One `__fpwd_otp_cache` entry. -/
structure FpwdEntry where
  expires : Time
  payload : FpwdPayload
deriving DecidableEq, Repr

/-- A row of the `USER` table in the order `register` inserts the columns. -/
structure UserRow where
  username : String
  displayname : String
  email : String
  password : String
  friends : String
  last_game_id : Int
deriving DecidableEq, Repr

/-- A row of the `STATS` table. -/
structure StatsRow where
  username : String
  total_minutes : Int
  games_played : Int
  games_won : Int
  total_kills : Int
  total_deaths : Int
deriving DecidableEq, Repr

/-- The account store consumed by `register`. -/
structure AccountsDB where
  users : List UserRow
  stats : List StatsRow
deriving DecidableEq, Repr

/-- `DBManager.register_collision` (lines 385-400): some cached entry
holds the same username with at least one differing field. -/
def registerCollision (cache : List (Nat × RegEntry)) (p : RegPayload) : Bool :=
  cache.any (fun ce =>
    ce.2.payload ≠ p && ce.2.payload.username == p.username)

/-- `DBManager.send_register_otp` (lines 608-633): drop any entry with the
exact same payload (the holder asked for a new code), then store the
sampled code with a five-minute expiry.  The sampling loop's collision
test, `otp_code not in self.__register_cache.values()`, compares the int
against `OTPCacheDict` values and is always true, so the first draw —
passed here as `code` — is always taken, and the dict assignment
overwrites any entry that code already keyed. -/
def sendRegisterOtp (cache : List (Nat × RegEntry)) (now : Time)
    (p : RegPayload) (code : Nat) : List (Nat × RegEntry) :=
  let cache' :=
    match cache.find? (fun ce => ce.2.payload == p) with
    | some ce => dictDel cache ce.1
    | none => cache
  dictSet cache' code { expires := now + 300, payload := p }

inductive RegisterResult
  | usernameTaken   -- error code 1
  | held            -- error code 4
  | sentOtp         -- no code supplied: issue one
  | expiredResent   -- error code 5
  | invalidCode     -- error code 2
  | mismatch        -- error code 3
  | created
deriving DecidableEq, Repr

/-- `DBManager.register` (lines 402-541) without its rate-limit gate
(modelled separately) and email side effects.  In source order: reject a
persisted username; reject a username held by a different in-flight
payload; with no code, issue one; with a code, scan the cache for an
entry with the exact submitted payload — report expired (and re-issue) if
such an entry has passed its expiry or if none exists; then key the cache
by the submitted code, reporting invalid when it keys nothing and mismatch
when the keyed entry's payload differs; only then insert the account and
stats rows. -/
def register (db : AccountsDB) (cache : List (Nat × RegEntry)) (now : Time)
    (p : RegPayload) (otp : Option Nat) : RegisterResult × AccountsDB :=
  if db.users.any (fun r => r.username == p.username) then
    (.usernameTaken, db)
  else if registerCollision cache p then (.held, db)
  else
    match otp with
    | none => (.sentOtp, db)
    | some code =>
      if cache.any (fun ce => ce.2.payload == p && ce.2.expires ≤ now) then
        (.expiredResent, db)
      else if !cache.any (fun ce => ce.2.payload == p) then
        (.expiredResent, db)
      else
        match dictGet cache code with
        | none => (.invalidCode, db)
        | some e =>
          if e.payload ≠ p then (.mismatch, db)
          else
            (.created,
             { users := db.users ++
                 [{ username := p.username, displayname := p.displayname,
                    email := p.email, password := p.password, friends := "",
                    last_game_id := 0 }],
               stats := db.stats ++
                 [{ username := p.username, total_minutes := 0,
                    games_played := 0, games_won := 0, total_kills := 0,
                    total_deaths := 0 }] })

inductive UpdatePasswordResult
  | invalidCode
  | mismatched
  | ok
deriving DecidableEq, Repr

/-- `DBManager.update_password` (lines 545-587) without its rate-limit
gate: key the forgot-password cache by the submitted code (`invalidCode`
when absent), compare the stored username and email with the submitted
ones (`mismatched` on any difference), and otherwise run the password
`UPDATE` and report success.  The function takes no clock: nothing in this
path reads the entry's expiry timestamp. -/
def updatePassword (cache : List (Nat × FpwdEntry)) (username email : String)
    (code : Nat) : UpdatePasswordResult :=
  match dictGet cache code with
  | none => .invalidCode
  | some e =>
    if e.payload.username == username && e.payload.email == email then .ok
    else .mismatched

/-! ### Friend workflow (database.py, `DBManager.add_friend` lines 818-885,
`get_friends_for` lines 715-736, `notify_friends_update` lines 798-816) -/

/-- The live `Root` of an authenticated connection, restricted to the
fields `add_friend` touches. -/
structure LiveRoot where
  username : Username
  friends : List Username
deriving DecidableEq, Repr

/-- The persisted relations `add_friend` reads and writes: the `FRIENDS`
column per account (the comma-separated string is modelled as the name
list it encodes) and the `FRIEND_REQUEST` rows. -/
structure FriendDB where
  friends : List (Username × List Username)
  requests : List (Username × Username)
deriving DecidableEq, Repr

/-- `get_friends_for` without its token check: the stored list, or `[]`
when the row is missing or the column empty. -/
def getFriendsFor (db : FriendDB) (u : Username) : List Username :=
  match dictGet db.friends u with
  | some l => l
  | none => []

/-- `notify_friends_update(username, with_user, event='added')`: every live
connection authenticated as `username` gets `with_user` appended to its
in-memory friends (unless already present) and receives the notification.
Returns the updated connection table and the notified connection ids. -/
def notifyFriendsAdded (conns : List (Nat × LiveRoot))
    (username with_user : Username) : List (Nat × LiveRoot) × List Nat :=
  (conns.map (fun pc =>
     if pc.2.username == username then
       (pc.1, { pc.2 with friends :=
          if with_user ∈ pc.2.friends then pc.2.friends
          else pc.2.friends ++ [with_user] })
     else pc),
   (conns.filter (fun pc => pc.2.username == username)).map (·.1))

inductive AddFriendResult
  | alreadyFriends   -- error code 3
  | sent
  | accepted
deriving DecidableEq, Repr

/-- Everything `add_friend` leaves behind: reply, persisted relations,
connection table, the caller's (mutated, aliased) live root, and the ids of
the connections the acceptance notification reached. -/
structure AddFriendOutcome where
  result : AddFriendResult
  db : FriendDB
  conns : List (Nat × LiveRoot)
  root : LiveRoot
  notified : List Nat
deriving DecidableEq, Repr

/-- `DBManager.add_friend` without its rate-limit and authentication
gates.  In source order: conflict when `to_user` is already in the
caller's in-memory friends; `sent` when the forward request row already
exists; when the reverse row exists, accept — both `FRIENDS` columns are
rewritten (the recipient's from the persisted list, the caller's from the
live root's list, which the source mutates in place), the reverse row is
deleted and the recipient's live connections are notified; otherwise
insert the forward row. -/
def addFriend (db : FriendDB) (conns : List (Nat × LiveRoot))
    (root : LiveRoot) (to_user : Username) : AddFriendOutcome :=
  if to_user ∈ root.friends then
    { result := .alreadyFriends, db := db, conns := conns, root := root,
      notified := [] }
  else if (root.username, to_user) ∈ db.requests then
    { result := .sent, db := db, conns := conns, root := root, notified := [] }
  else if (to_user, root.username) ∈ db.requests then
    let to_frnds := getFriendsFor db to_user ++ [root.username]
    let from_frnds := root.friends ++ [to_user]
    let db' : FriendDB :=
      { friends := dictUpdate (dictUpdate db.friends to_user to_frnds)
          root.username from_frnds,
        requests := db.requests.filter
          (fun rq => decide (rq ≠ (to_user, root.username))) }
    let nt := notifyFriendsAdded conns to_user root.username
    { result := .accepted, db := db', conns := nt.1,
      root := { root with friends := from_frnds }, notified := nt.2 }
  else
    { result := .sent,
      db := { db with requests := db.requests ++ [(root.username, to_user)] },
      conns := conns, root := root, notified := [] }

/-! ### Concrete states used by counterexamples and witnesses -/

/-- A lobby holding `alice` (host) and `bob`, both still in `switcher`. -/
def c3Lobby : Lobby :=
  { host := "alice", red_team := [], blue_team := [],
    switcher := ["alice", "bob"],
    players := [("alice", 0), ("bob", 1)], invite_code := 123456,
    game_settings := { total_rounds := 3, round_duration := 150 } }

/-- Registry holding `c3Lobby` under id `L1` with its invite record. -/
def c3Reg : LobbyRegistry :=
  { lobbies := [("L1", c3Lobby)],
    invites := [(123456, { audit_log := [], invited_users := [],
                           lobby_id := "L1" })] }

/-- What `join_lobby` makes of `c3Lobby` when `bob`, already a member,
presents the invite code a second time. -/
def c3LobbyAfter : Lobby :=
  { c3Lobby with switcher := ["alice", "bob", "bob"],
                 players := [("alice", 0), ("bob", 5)] }

/-- `alice`'s lobby as `create_lobby` built it with invite code 123456. -/
def c4LobbyAlice : Lobby := newLobby "alice" 0 123456

/-- Registry with `alice`'s active lobby holding invite code 123456. -/
def c4Reg : LobbyRegistry :=
  { lobbies := [("L1", c4LobbyAlice)],
    invites := [(123456, { audit_log := [], invited_users := [],
                           lobby_id := "L1" })] }

/-- The registry after `bob` creates a lobby while the random draw repeats
code 123456: both lobbies are active under the same invite code and the
invite record now points at `bob`'s lobby. -/
def c4RegAfter : LobbyRegistry :=
  { lobbies := [("L1", c4LobbyAlice), ("L2", newLobby "bob" 10 123456)],
    invites := [(123456, { audit_log := [], invited_users := [],
                           lobby_id := "L2" })] }

/-- A lobby already holding ten players. -/
def c6Lobby : Lobby :=
  { host := "p1", red_team := ["p1", "p2", "p3", "p4", "p5"],
    blue_team := ["p6", "p7", "p8", "p9", "p10"], switcher := [],
    players := [("p1", 0), ("p2", 1), ("p3", 2), ("p4", 3), ("p5", 4),
                ("p6", 5), ("p7", 6), ("p8", 7), ("p9", 8), ("p10", 9)],
    invite_code := 123456,
    game_settings := { total_rounds := 3, round_duration := 150 } }

def c6Reg : LobbyRegistry :=
  { lobbies := [("L1", c6Lobby)],
    invites := [(123456, { audit_log := [], invited_users := [],
                           lobby_id := "L1" })] }

/-- `c6Lobby` after the eleventh member joined through `join_lobby`. -/
def c6LobbyAfter : Lobby :=
  { c6Lobby with switcher := ["p11"],
                 players := c6Lobby.players ++ [("p11", 99)] }

/-- The same registry with the game already starting. -/
def c6RegStarted : LobbyRegistry :=
  { c6Reg with lobbies := [("L1", { c6Lobby with game_starting_at := some 50 })] }

/-- A lobby hosted by `alice` with the default settings. -/
def c5Lobby : Lobby :=
  { host := "alice", red_team := [], blue_team := [], switcher := ["alice"],
    players := [("alice", 0)], invite_code := 222222,
    game_settings := { total_rounds := 3, round_duration := 150 } }

/-- The registration payload of `alice`'s sign-up attempt. -/
def payloadA : RegPayload :=
  { displayname := "Alice", username := "alice", email := "alice@mail.com",
    password := "hashA" }

/-- A different user's in-flight registration payload. -/
def payloadC : RegPayload :=
  { displayname := "Carol", username := "carol", email := "carol@mail.com",
    password := "hashC" }

/-- Register cache holding `alice`'s code 111111, expiring at time 300. -/
def regCache1 : List (Nat × RegEntry) :=
  [(111111, { expires := 300, payload := payloadA })]

/-- Register cache holding both `alice`'s and `carol`'s codes. -/
def regCache2 : List (Nat × RegEntry) :=
  [(111111, { expires := 300, payload := payloadA }),
   (333333, { expires := 300, payload := payloadC })]

/-- Forgot-password cache holding `alice`'s code 111111, expiring at
time 300. -/
def fpwdCache1 : List (Nat × FpwdEntry) :=
  [(111111, { expires := 300,
              payload := { username := "alice", email := "alice@mail.com" } })]

/-- An empty account store: no username is taken. -/
def db0 : AccountsDB := { users := [], stats := [] }

/-- The `USER` row `register` inserts for `payloadA`. -/
def userRowAlice : UserRow :=
  { username := "alice", displayname := "Alice", email := "alice@mail.com",
    password := "hashA", friends := "", last_game_id := 0 }

/-- The `STATS` row `register` inserts for `payloadA`. -/
def statsRowAlice : StatsRow :=
  { username := "alice", total_minutes := 0, games_played := 0,
    games_won := 0, total_kills := 0, total_deaths := 0 }

/-- A rate-limit entry three requests in. -/
def c7Calm : RateLimitEntry :=
  { times := 3, limit := 50, clear_after := some 200, retry_after := none }

/-- A rate-limit entry whose next request reaches the limit of 50. -/
def c7Edge : RateLimitEntry :=
  { times := 49, limit := 50, clear_after := some 200, retry_after := none }

/-- An entry whose `retry_after` lies two hours in the past while its
`clear_after` has not yet passed: the claimed sweep rule deletes it, the
source keeps it. -/
def c8Entry : RateLimitEntry :=
  { times := 1, limit := 50, clear_after := some 10000,
    retry_after := some 0 }

/-- An over-limit entry whose `clear_after` has passed: the sweep
deletes it. -/
def c8Del : RateLimitEntry :=
  { times := 60, limit := 50, clear_after := some 100,
    retry_after := some 400 }

/-- An over-limit entry whose `clear_after` is still ahead: the sweep
keeps it. -/
def c8Keep : RateLimitEntry :=
  { times := 60, limit := 50, clear_after := some 3150,
    retry_after := some 3000 }

/-- A two-entry rate-limit cache for exercising one sweep pass. -/
def c8Cache : List (Nat × RateLimitEntry) := [(1, c8Del), (2, c8Keep)]

/-- Persisted friend state after `alice` sent `bob` a request: both
accounts exist with empty friend lists and the row (alice, bob) is
pending. -/
def c9Db : FriendDB :=
  { friends := [("alice", []), ("bob", [])],
    requests := [("alice", "bob")] }

/-- `bob`'s live root at the moment he calls `add_friend(bob, alice)`. -/
def c9Bob : LiveRoot := { username := "bob", friends := [] }

/-- Live connections: `alice` on connection 1, `bob` on connection 2. -/
def c9Conns : List (Nat × LiveRoot) :=
  [(1, { username := "alice", friends := [] }), (2, c9Bob)]

/-- A lobby where `bob` currently sits on the red team. -/
def c10Lobby : Lobby :=
  { host := "alice", red_team := ["bob"], blue_team := [],
    switcher := ["alice"], players := [("alice", 0), ("bob", 1)],
    invite_code := 123456,
    game_settings := { total_rounds := 3, round_duration := 150 } }

/-- `c10Lobby` after `join_team` with the unvalidated value `green`:
`bob` is moved from the red team into `switcher`. -/
def c10After : Lobby :=
  { c10Lobby with red_team := [], switcher := ["alice", "bob"] }

/-! ### Helper lemmas -/

theorem dictGet_dictUpdate_self [DecidableEq k] (l : List (k × v)) (key : k)
    (val v0 : v) (h : dictGet l key = some v0) :
    dictGet (dictUpdate l key val) key = some val := by
  induction l with
  | nil => simp [dictGet] at h
  | cons p rest ih =>
    by_cases hk : p.1 = key
    · simp [dictGet, dictUpdate, hk]
    · simp only [dictGet, dictUpdate, if_neg hk] at h ⊢
      exact ih h

theorem dictGet_dictUpdate_ne [DecidableEq k] (l : List (k × v)) (k1 k2 : k)
    (val : v) (h : k1 ≠ k2) :
    dictGet (dictUpdate l k1 val) k2 = dictGet l k2 := by
  induction l with
  | nil => simp [dictUpdate]
  | cons p rest ih =>
    by_cases hk : p.1 = k1
    · simp [dictGet, dictUpdate, hk, h, if_neg (show ¬k1 = k2 from h)]
    · simp only [dictGet, dictUpdate, if_neg hk]
      by_cases hk2 : p.1 = k2 <;> simp [hk2, ih]

theorem pyIfMin (d0 : Int) :
    (if 3600 < d0 then 3600 else d0) = min d0 3600 := by
  simp only [min_def]; split_ifs <;> omega

/-- `lobbyInv` read pointwise: every name occurs at most once across the
three membership lists. -/
theorem count_le_one_of_lobbyInv {l : Lobby} (h : lobbyInv l) (a : Username) :
    l.red_team.count a + l.blue_team.count a + l.switcher.count a ≤ 1 := by
  have := List.nodup_iff_count_le_one.mp h a
  simpa [List.count_append, Nat.add_assoc] using this

theorem lobbyInv_of_count {l : Lobby}
    (h : ∀ a, l.red_team.count a + l.blue_team.count a
      + l.switcher.count a ≤ 1) : lobbyInv l := by
  refine List.nodup_iff_count_le_one.mpr fun a => ?_
  simpa [List.count_append, Nat.add_assoc] using h a

/-- After the shared removal chain, the removed member occurs nowhere, and
no other member's occurrences change. -/
theorem removeMember_counts {l : Lobby} (h : lobbyInv l) (u : Username) :
    ((removeMember l u).red_team.count u = 0 ∧
     (removeMember l u).blue_team.count u = 0 ∧
     (removeMember l u).switcher.count u = 0) ∧
    ∀ a, a ≠ u →
      (removeMember l u).red_team.count a = l.red_team.count a ∧
      (removeMember l u).blue_team.count a = l.blue_team.count a ∧
      (removeMember l u).switcher.count a = l.switcher.count a := by
  have hc := count_le_one_of_lobbyInv h u
  unfold removeMember
  split_ifs with h1 h2 h3
  · have hs := List.count_pos_iff.mpr h1
    refine ⟨⟨?_, ?_, ?_⟩, fun a ha => ⟨rfl, rfl, List.count_erase_of_ne ha _⟩⟩
    · simp only []; omega
    · simp only []; omega
    · simp only [List.count_erase_self]; omega
  · have hb := List.count_pos_iff.mpr h2
    refine ⟨⟨?_, ?_, ?_⟩, fun a ha => ⟨rfl, List.count_erase_of_ne ha _, rfl⟩⟩
    · simp only []; omega
    · simp only [List.count_erase_self]; omega
    · have := List.count_eq_zero_of_not_mem h1; simpa using this
  · have hr := List.count_pos_iff.mpr h3
    refine ⟨⟨?_, ?_, ?_⟩, fun a ha => ⟨List.count_erase_of_ne ha _, rfl, rfl⟩⟩
    · simp only [List.count_erase_self]; omega
    · have := List.count_eq_zero_of_not_mem h2; simpa using this
    · have := List.count_eq_zero_of_not_mem h1; simpa using this
  · exact ⟨⟨List.count_eq_zero_of_not_mem h3, List.count_eq_zero_of_not_mem h2,
      List.count_eq_zero_of_not_mem h1⟩, fun _ _ => ⟨rfl, rfl, rfl⟩⟩

theorem lobbyInv_removeMember {l : Lobby} (h : lobbyInv l) (u : Username) :
    lobbyInv (removeMember l u) := by
  obtain ⟨⟨hr, hb, hs⟩, hne⟩ := removeMember_counts h u
  refine lobbyInv_of_count fun a => ?_
  by_cases ha : a = u
  · subst ha; omega
  · obtain ⟨e1, e2, e3⟩ := hne a ha
    have := count_le_one_of_lobbyInv h a
    omega

theorem lobbyInv_joinTeamLists {l : Lobby} (h : lobbyInv l) (u : Username)
    (team : Option String) : lobbyInv (joinTeamLists l u team) := by
  obtain ⟨⟨hr, hb, hs⟩, hne⟩ := removeMember_counts h u
  have hcnt : ∀ a, (removeMember l u).red_team.count a
      + (removeMember l u).blue_team.count a
      + (removeMember l u).switcher.count a ≤ if a = u then 0 else 1 := by
    intro a
    by_cases ha : a = u
    · subst ha; simp [hr, hb, hs]
    · obtain ⟨e1, e2, e3⟩ := hne a ha
      have := count_le_one_of_lobbyInv h a
      simp only [if_neg ha]; omega
  unfold joinTeamLists
  split_ifs <;>
  · refine lobbyInv_of_count fun a => ?_
    have := hcnt a
    by_cases ha : a = u <;>
      simp_all [List.count_append, List.count_singleton]

/-! ### Claim theorems -/

/-- Claim C1 (corrected), counterexample: with red keeping 2 players and
blue 1 at round end, the claimed rule ("the greater non-zero count wins")
names red, but `on_round_end` records blue. -/
theorem c1_counterexample :
    roundWinnerClaimed 2 1 = "red" ∧ roundWinner 2 1 = "blue" := by
  constructor <;> rfl

/-- Claim C1 (amended): the round winner is computed solely from the two
remaining counts — a draw exactly on equal counts, red exactly when red
still has players and blue has none, and blue in every other unequal case
(in particular whenever both teams are non-empty and unequal, blue is
recorded regardless of which count is greater).  The three quoted examples
hold. -/
theorem c1_round_winner (r b : Int) :
    (roundWinner r b = "draw" ↔ r = b) ∧
    (roundWinner r b = "red" ↔ r ≠ b ∧ 0 < r ∧ b ≤ 0) ∧
    (roundWinner r b = "blue" ↔ r ≠ b ∧ (r ≤ 0 ∨ 0 < b)) ∧
    roundWinner 0 3 = "blue" ∧ roundWinner 2 2 = "draw" ∧
    roundWinner 0 0 = "draw" := by
  refine ⟨?_, ?_, ?_, rfl, rfl, rfl⟩ <;>
  · unfold roundWinner
    split_ifs with h1 h2 <;>
      simp_all [show ("draw" : String) ≠ "red" from by decide,
        show ("draw" : String) ≠ "blue" from by decide,
        show ("red" : String) ≠ "draw" from by decide,
        show ("red" : String) ≠ "blue" from by decide,
        show ("blue" : String) ≠ "draw" from by decide,
        show ("blue" : String) ≠ "red" from by decide] <;>
      omega

/-- Claim C4 (code bug): the sampling loop's uniqueness test compares the
candidate int against the `Invite` values of the dict, so it never finds a
collision; when the random draw repeats an active code, `create_lobby`
happily creates a second active lobby under the same invite code and
overwrites the invite record of the first. -/
theorem c4_duplicate_invite_code :
    (∀ invs c, inviteCodeInValues invs c = false) ∧
    createLobby "bob" (fun _ => 123456) 10 "L2" c4Reg =
      CreateLobbyResult.ok c4RegAfter "L2" (newLobby "bob" 10 123456) ∧
    dictGet c4RegAfter.lobbies "L1" = some c4LobbyAlice ∧
    dictGet c4RegAfter.lobbies "L2" = some (newLobby "bob" 10 123456) ∧
    c4LobbyAlice.invite_code = 123456 ∧
    (newLobby "bob" 10 123456).invite_code = 123456 ∧
    dictGet c4RegAfter.invites 123456 =
      some { audit_log := [], invited_users := [], lobby_id := "L2" } := by
  refine ⟨fun invs c => ?_, by decide, by decide, by decide, rfl, rfl,
    by decide⟩
  simp [inviteCodeInValues, pyIntEqInvite]

/-- Claim C6 (code bug): the capacity test `lobby.players == 10` compares
the players dict itself to an int and is always `False`, so the Full error
is dead code — an eleventh member joins a ten-player lobby; the NotFound
paths (unknown code, `game_starting_at` set) behave as claimed. -/
theorem c6_full_never_triggers :
    (∀ ps, playersDictEqTen ps = false) ∧
    c6Lobby.players.length = 10 ∧
    (joinLobby "p11" 123456 99 c6Reg).1 =
      JoinLobbyResult.joined "L1" c6LobbyAfter ∧
    c6LobbyAfter.players.length = 11 ∧
    (joinLobby "x" 999999 99 c6Reg).1 = JoinLobbyResult.notFound ∧
    (joinLobby "x" 123456 99 c6RegStarted).1 = JoinLobbyResult.notFound := by
  exact ⟨fun ps => rfl, by decide, by decide, by decide, by decide, by decide⟩

/-- Claim C7 (confirmed): the first request creates
`times 1, limit 50, clear_after now+5min, retry_after none`; each later
request increments `times`; under the limit the entry is forgiven
(`retry_after` cleared, `clear_after` pushed to now+1min); at or over the
limit `retry_after` becomes `now + min(times*5, 3600)`, `clear_after`
becomes `retry_after + 150`, and the connection is notified with that
absolute `retry_after`; a connection is limited exactly while `retry_after`
is set and in the future. -/
theorem c7_rate_limiter (c : RateLimitEntry) (e : Option RateLimitEntry)
    (now : Time) :
    (maybeRlimit none now =
      ({ times := 1, limit := 50, clear_after := some (now + 300),
         retry_after := none }, none)) ∧
    (c.times + 1 < c.limit →
      maybeRlimit (some c) now =
        ({ c with times := c.times + 1, retry_after := none,
                  clear_after := some (now + 60) }, none)) ∧
    (c.limit ≤ c.times + 1 →
      maybeRlimit (some c) now =
        ({ c with times := c.times + 1,
                  retry_after := some (now + min ((c.times + 1) * 5) 3600),
                  clear_after := some (now + min ((c.times + 1) * 5) 3600 + 150) },
         some (now + min ((c.times + 1) * 5) 3600))) ∧
    (isRlimited e now = true ↔
      ∃ c0 r, e = some c0 ∧ c0.retry_after = some r ∧ now < r) := by
  refine ⟨rfl, fun h => ?_, fun h => ?_, ?_⟩
  · simp only [maybeRlimit]
    rw [if_pos h]
  · simp only [maybeRlimit]
    rw [if_neg (by omega), pyIfMin]
  · match e with
    | none => simp [isRlimited]
    | some c0 =>
      match hr : c0.retry_after with
      | none => simp [isRlimited, hr]
      | some r => simp [isRlimited, hr]

/-- Witness for C7: a calm request is forgiven, the fiftieth request is
penalized with `retry_after = now + 250` and notified, and that entry
counts as limited while the penalty is ahead. -/
theorem c7_rate_limiter_witness :
    maybeRlimit (some c7Calm) 1000 =
      ({ times := 4, limit := 50, clear_after := some 1060,
         retry_after := none }, none) ∧
    maybeRlimit (some c7Edge) 1000 =
      ({ times := 50, limit := 50, clear_after := some 1400,
         retry_after := some 1250 }, some 1250) ∧
    isRlimited (some { times := 50, limit := 50, clear_after := some 1400,
                       retry_after := some 1250 }) 1100 = true := by
  refine ⟨?_, ?_, ?_⟩
  · have h := (c7_rate_limiter c7Calm none 1000).2.1 (by decide)
    rw [h]; rfl
  · have h := (c7_rate_limiter c7Edge none 1000).2.2.1 (by decide)
    rw [h]; rfl
  · exact (c7_rate_limiter c7Calm
      (some { times := 50, limit := 50, clear_after := some 1400,
              retry_after := some 1250 }) 1100).2.2.2.mpr
      ⟨_, 1250, rfl, rfl, by decide⟩

/-- Claim C8 (corrected), counterexample: an entry whose `retry_after` is
two hours in the past (with `clear_after` still ahead and `times` under
`limit`) is deleted by the claimed rule, but the sweep keeps it — the
source tests `retry_after - now > 1h`, the future direction. -/
theorem c8_counterexample :
    sweepDeletesClaimed c8Entry 7200 = true ∧
    sweepDeletes c8Entry 7200 = false := by
  constructor <;> rfl

/-- Claim C8 (amended): one sweep pass deletes a rate-limit entry exactly
when its `retry_after` is set and lies more than one hour in the FUTURE
(`retry_after - now > 3600`, the source's orientation), or when its
`clear_after` is set and has passed while `times` is still at or over
`limit`; a completed pass keeps every other entry unchanged. -/
theorem c8_sweep (e : RateLimitEntry) (now : Time)
    (cache : List (Nat × RateLimitEntry)) (p : Nat × RateLimitEntry)
    (out : List (Nat × RateLimitEntry))
    (hp : sweepPass cache now = some out) :
    (sweepDeletes e now = true ↔
      (∃ r, e.retry_after = some r ∧ 3600 < r - now) ∨
      (∃ c, e.clear_after = some c ∧ e.limit ≤ e.times ∧ c ≤ now)) ∧
    (p ∈ out ↔ p ∈ cache ∧ sweepDeletes p.2 now = false) := by
  constructor
  · unfold sweepDeletes sweepCond1 sweepCond2
    match h1 : e.retry_after, h2 : e.clear_after with
    | none, none => simp
    | none, some c => simp [decide_eq_true_eq]
    | some r, none => simp [decide_eq_true_eq]
    | some r, some c => simp [decide_eq_true_eq]
  · unfold sweepPass at hp
    split_ifs at hp with hcrash
    obtain rfl : cache.filter (fun q => !sweepDeletes q.2 now) = out :=
      Option.some.inj hp
    simp [List.mem_filter]

/-- Witness for C8: on a concrete two-entry cache the pass completes,
removing the over-limit entry whose `clear_after` has passed and keeping
the other unchanged. -/
theorem c8_sweep_witness :
    sweepPass c8Cache 500 = some [(2, c8Keep)] ∧
    ((2, c8Keep) ∈ [(2, c8Keep)] ↔
      (2, c8Keep) ∈ c8Cache ∧ sweepDeletes c8Keep 500 = false) :=
  ⟨by decide,
   (c8_sweep c8Keep 500 c8Cache (2, c8Keep) [(2, c8Keep)] (by decide)).2⟩

/-- Claim C3 (corrected), counterexample: `join_lobby` never checks whether
the joiner is already present, so a member who presents the invite code a
second time is appended to `switcher` again — from an invariant-satisfying
reachable state, `join_lobby` produces a lobby in which `bob` occurs twice. -/
theorem c3_counterexample :
    lobbyInv c3Lobby ∧
    (joinLobby "bob" 123456 5 c3Reg).1 =
      JoinLobbyResult.joined "L1" c3LobbyAfter ∧
    ¬ lobbyInv c3LobbyAfter := by
  exact ⟨by decide, by decide, by decide⟩

/-- Claim C3 (amended): the disjointness invariant — each username occurs
at most once across `red_team`, `blue_team` and `switcher` — is
established by `create_lobby` and preserved by `join_team` (any `team`
value) and by the shared removal chain of both leave paths; `join_lobby`
preserves it only when the joining user is not already in one of the
lists, since it appends to `switcher` unconditionally. -/
theorem c3_lists_invariant (l l2 : Lobby) (host u : Username)
    (team : Option String) (now : Time) (code : Nat) (st : LobbyRegistry)
    (lid : String)
    (hinv : lobbyInv l)
    (hfind : findJoinableLobby st.lobbies code = some (lid, l2))
    (hinv2 : lobbyInv l2)
    (hr : u ∉ l2.red_team) (hb : u ∉ l2.blue_team) (hs : u ∉ l2.switcher) :
    lobbyInv (newLobby host now code) ∧
    lobbyInv (joinTeamLists l u team) ∧
    lobbyInv (removeMember l u) ∧
    (joinLobby u code now st).1 = JoinLobbyResult.joined lid
      { l2 with switcher := l2.switcher ++ [u],
                players := dictSet l2.players u now } ∧
    lobbyInv { l2 with switcher := l2.switcher ++ [u],
                       players := dictSet l2.players u now } := by
  refine ⟨by simp [lobbyInv, newLobby], lobbyInv_joinTeamLists hinv u team,
    lobbyInv_removeMember hinv u, ?_, ?_⟩
  · simp [joinLobby, hfind, playersDictEqTen]
  · refine lobbyInv_of_count fun a => ?_
    have hgen := count_le_one_of_lobbyInv hinv2 a
    by_cases ha : a = u
    · subst ha
      simp [List.count_append, List.count_eq_zero_of_not_mem hr,
        List.count_eq_zero_of_not_mem hb, List.count_eq_zero_of_not_mem hs]
    · simp only [List.count_append, List.count_singleton]
      have : (if u == a then 1 else 0) = 0 := by
        simp [Ne.symm ha]
      omega

/-- Witness for C3 at a concrete state: a fresh lobby satisfies the
invariant, team switching and leaving preserve it, and a first-time join
through `join_lobby` preserves it. -/
theorem c3_lists_invariant_witness :
    lobbyInv (newLobby "host" 0 123456) ∧
    lobbyInv (joinTeamLists c5Lobby "bob" (some "red")) ∧
    lobbyInv (removeMember c5Lobby "bob") ∧
    (joinLobby "bob" 123456 0 c4Reg).1 = JoinLobbyResult.joined "L1"
      { c4LobbyAlice with switcher := c4LobbyAlice.switcher ++ ["bob"],
                          players := dictSet c4LobbyAlice.players "bob" 0 } ∧
    lobbyInv { c4LobbyAlice with
               switcher := c4LobbyAlice.switcher ++ ["bob"],
               players := dictSet c4LobbyAlice.players "bob" 0 } :=
  c3_lists_invariant c5Lobby c4LobbyAlice "host" "bob" (some "red") 0 123456
    c4Reg "L1" (by decide) (by decide) (by decide) (by decide) (by decide)
    (by decide)

/-- Claim C5 (corrected), counterexample: a requester who is not the lobby
host resubmits the lobby's current settings unchanged, and the handler
reports plain success (`status: True`), applying no host check and no
no-change check. -/
theorem c5_counterexample :
    ("bob" : String) ≠ c5Lobby.host ∧
    updateGameSettings "bob" (some c5Lobby) (some 3) (some 150) =
      (UpdateSettingsResult.statusTrue, some c5Lobby) := by
  exact ⟨by decide, by decide⟩

/-- Claim C5 (amended): `update_game_settings` succeeds exactly when the
lobby exists and both values are integers with `total_rounds` in 1..20 and
`round_duration` in 60..600 — for any authenticated requester, host or
not (the reply is independent of the requester), and identical
resubmissions included; `total_rounds = 25` is rejected as a validation
error. -/
theorem c5_settings_update (user u2 : Username) (l : Lobby)
    (tr rd : Option Int) :
    ((updateGameSettings user (some l) tr rd).1 =
        UpdateSettingsResult.statusTrue ↔
      ∃ a d, tr = some a ∧ rd = some d ∧ 1 ≤ a ∧ a ≤ 20 ∧
        60 ≤ d ∧ d ≤ 600) ∧
    updateGameSettings u2 (some l) tr rd =
      updateGameSettings user (some l) tr rd ∧
    (updateGameSettings user (some l) (some 25) (some 150)).1 =
      UpdateSettingsResult.errTotalRounds := by
  refine ⟨?_, rfl, rfl⟩
  cases tr with
  | none => simp [updateGameSettings]
  | some a =>
    cases rd with
    | none => simp [updateGameSettings]
    | some d =>
      simp only [updateGameSettings]
      split_ifs with h1 h2 <;> simp <;> omega

/-- Claim C10 (confirmed): the `join_team` handler never validates the
`team` argument — for any value other than `red` and `blue` (including a
missing one) it removes the user from whichever list holds them, appends
them to `switcher`, and still replies with `status: True`. -/
theorem c10_join_team_unvalidated (l : Lobby) (u : Username)
    (team : Option String) (hr : team ≠ some "red")
    (hb : team ≠ some "blue") :
    joinTeamCommand (some l) u team =
      (some { removeMember l u with
              switcher := (removeMember l u).switcher ++ [u] }, true) := by
  simp [joinTeamCommand, joinTeamLists, hr, hb]

/-- Witness for C10: with `team = green`, `bob` is moved off the red team
into `switcher` and the reply is still `status: True`. -/
theorem c10_join_team_unvalidated_witness :
    joinTeamCommand (some c10Lobby) "bob" (some "green") =
      (some c10After, true) := by
  have h := c10_join_team_unvalidated c10Lobby "bob" (some "green")
    (by decide) (by decide)
  rw [h]; rfl

/-- Claim C2 (code bug): the registration path enforces the five-minute
expiry itself — an exact code-and-payload match is `created` strictly
before the expiry instant and `expiredResent` from that instant on, an
unknown code is `invalidCode`, and a code keying a different payload is
`mismatch`, with the account and stats rows inserted only on `created`.
The password-reset path, however, never reads the cached entry's expiry:
`updatePassword` takes no clock, so the same-aged (already expired) reset
code is still accepted and the `UPDATE` runs, as long as the 5-second
sweep has not yet removed the entry. -/
theorem c2_otp_expiry :
    (register db0 regCache1 299 payloadA (some 111111)).1 =
      RegisterResult.created ∧
    (register db0 regCache1 299 payloadA (some 111111)).2.users =
      db0.users ++ [userRowAlice] ∧
    (register db0 regCache1 299 payloadA (some 111111)).2.stats =
      db0.stats ++ [statsRowAlice] ∧
    (register db0 regCache1 300 payloadA (some 111111)).1 =
      RegisterResult.expiredResent ∧
    (register db0 regCache1 299 payloadA (some 222222)).1 =
      RegisterResult.invalidCode ∧
    (register db0 regCache2 299 payloadA (some 333333)).1 =
      RegisterResult.mismatch ∧
    updatePassword fpwdCache1 "alice" "alice@mail.com" 111111 =
      UpdatePasswordResult.ok ∧
    updatePassword fpwdCache1 "alice" "wrong@mail.com" 111111 =
      UpdatePasswordResult.mismatched ∧
    updatePassword fpwdCache1 "alice" "alice@mail.com" 999999 =
      UpdatePasswordResult.invalidCode := by
  refine ⟨by decide, by decide, by decide, by decide, by decide, by decide,
    by decide, by decide, by decide⟩

/-- Claim C9 (confirmed): calling `add_friend` while the reverse request
is pending is treated as an accept — both accounts' persisted friend lists
gain each other (symmetric), the pending row is deleted, and the
notification reaches exactly the recipient's live connections; a
subsequent identical call then reports the already-friends conflict, and a
duplicate forward request merely reports `sent`. -/
theorem c9_add_friend_accept (db : FriendDB) (conns : List (Nat × LiveRoot))
    (root : LiveRoot) (to_user : Username) (toFl fromFl : List Username)
    (hne : root.username ≠ to_user)
    (hnf : to_user ∉ root.friends)
    (hfw : (root.username, to_user) ∉ db.requests)
    (hrv : (to_user, root.username) ∈ db.requests)
    (hto : dictGet db.friends to_user = some toFl)
    (hfrom : dictGet db.friends root.username = some fromFl) :
    (addFriend db conns root to_user).result = AddFriendResult.accepted ∧
    getFriendsFor (addFriend db conns root to_user).db to_user =
      toFl ++ [root.username] ∧
    getFriendsFor (addFriend db conns root to_user).db root.username =
      root.friends ++ [to_user] ∧
    root.username ∈ getFriendsFor (addFriend db conns root to_user).db to_user ∧
    to_user ∈ getFriendsFor (addFriend db conns root to_user).db root.username ∧
    (to_user, root.username) ∉ (addFriend db conns root to_user).db.requests ∧
    (addFriend db conns root to_user).notified =
      (conns.filter (fun pc => pc.2.username == to_user)).map (·.1) ∧
    (addFriend db conns root to_user).root.friends =
      root.friends ++ [to_user] ∧
    (addFriend (addFriend db conns root to_user).db
        (addFriend db conns root to_user).conns
        (addFriend db conns root to_user).root to_user).result =
      AddFriendResult.alreadyFriends ∧
    (∀ db2 root2, (root2.username, to_user) ∈ db2.requests →
      to_user ∉ root2.friends →
      (addFriend db2 conns root2 to_user).result = AddFriendResult.sent) := by
  have hgetTo : getFriendsFor db to_user = toFl := by
    simp [getFriendsFor, hto]
  have hstep : addFriend db conns root to_user =
      { result := .accepted,
        db := { friends := dictUpdate (dictUpdate db.friends to_user
                  (toFl ++ [root.username]))
                  root.username (root.friends ++ [to_user]),
                requests := db.requests.filter
                  (fun rq => decide (rq ≠ (to_user, root.username))) },
        conns := (notifyFriendsAdded conns to_user root.username).1,
        root := { root with friends := root.friends ++ [to_user] },
        notified := (notifyFriendsAdded conns to_user root.username).2 } := by
    simp [addFriend, hnf, hfw, hrv, hgetTo]
  have hd1 : dictGet (dictUpdate (dictUpdate db.friends to_user
      (toFl ++ [root.username])) root.username (root.friends ++ [to_user]))
      to_user = some (toFl ++ [root.username]) := by
    rw [dictGet_dictUpdate_ne _ _ _ _ hne]
    exact dictGet_dictUpdate_self _ _ _ _ hto
  have hd2 : dictGet (dictUpdate (dictUpdate db.friends to_user
      (toFl ++ [root.username])) root.username (root.friends ++ [to_user]))
      root.username = some (root.friends ++ [to_user]) := by
    apply dictGet_dictUpdate_self
    rw [dictGet_dictUpdate_ne _ _ _ _ (Ne.symm hne)]
    exact hfrom
  rw [hstep]
  refine ⟨rfl, ?_, ?_, ?_, ?_, ?_, rfl, rfl, ?_, ?_⟩
  · simp [getFriendsFor, hd1]
  · simp [getFriendsFor, hd2]
  · simp [getFriendsFor, hd1]
  · simp [getFriendsFor, hd2]
  · simp [List.mem_filter]
  · simp [addFriend]
  · intro db2 root2 h2 hnf2
    simp [addFriend, hnf2, h2]

/-- Witness for C9, the quoted scenario: with the row (alice, bob) pending,
`add_friend(bob, alice)` is accepted, both persisted lists become
symmetric, the row is gone, `alice`'s connection 1 is notified, and a
repeat call reports the already-friends conflict. -/
theorem c9_add_friend_accept_witness :
    (addFriend c9Db c9Conns c9Bob "alice").result =
      AddFriendResult.accepted ∧
    getFriendsFor (addFriend c9Db c9Conns c9Bob "alice").db "alice" =
      ["bob"] ∧
    getFriendsFor (addFriend c9Db c9Conns c9Bob "alice").db "bob" =
      ["alice"] ∧
    ("alice", "bob") ∉ (addFriend c9Db c9Conns c9Bob "alice").db.requests ∧
    (addFriend c9Db c9Conns c9Bob "alice").notified = [1] ∧
    (addFriend (addFriend c9Db c9Conns c9Bob "alice").db
        (addFriend c9Db c9Conns c9Bob "alice").conns
        (addFriend c9Db c9Conns c9Bob "alice").root "alice").result =
      AddFriendResult.alreadyFriends := by
  have h := c9_add_friend_accept c9Db c9Conns c9Bob "alice" [] []
    (by decide) (by decide) (by decide) (by decide) (by decide) (by decide)
  refine ⟨h.1, ?_, ?_, ?_, ?_, h.2.2.2.2.2.2.2.2.1⟩
  · simpa using h.2.1
  · simpa [c9Bob] using h.2.2.1
  · exact h.2.2.2.2.2.1
  · simpa using h.2.2.2.2.2.2.1

end TheFall
